import Mathlib

/-!
Shallow embedding of the accel repository core: the CUDA context-stack
discipline (driver/context.rs) and the memory copy engine
(memory/mod.rs, memory/host.rs, memory/slice.rs, memory/array.rs).

Native driver calls (cuCtxCreate, cuCtxPushCurrent, ...) are modelled as a
deterministic state machine over a per-thread driver state holding the
thread-local slot CONTEXT_STACK_LOCK and the native current-context stack.
The native stack is allowed to hold arbitrary handle values, including the
null handle 0, so that the defensive checks the Rust wrappers perform on
FFI results are all reachable.

Fallible operations return an explicit result: a success value, a typed
recoverable error (the Rust Result err path), or a recorded panic message
(the Rust assert / unimplemented / expect paths). Side-effecting copy and
allocation routines return the list of native transfer or allocation steps
they issued before finishing or panicking, so that the statement that a
guard fires before any bytes move is the statement that the step list is
empty.
-/

namespace Accel

/-- Memory kind tag, from enum MemoryType in memory/mod.rs. -/
inductive MemoryType
  | host
  | registered
  | pageLocked
  | device
  | array
  deriving DecidableEq

/-- Typed recoverable errors of the crate that the embedded code uses.
The variants ContextIsNotCurrent and ContextDuplicated are named in
driver/context.rs; cudaError stands for a native driver error propagated
through the question-mark operator. -/
inductive AccelError
  | contextIsNotCurrent
  | contextDuplicated
  | cudaError
  deriving DecidableEq

/-- Outcome of one embedded Rust call: Ok value, recoverable Err value, or
a panic with its message. -/
inductive CtxResult (α : Type)
  | ok : α → CtxResult α
  | err : AccelError → CtxResult α
  | panicked : String → CtxResult α
  deriving DecidableEq

/-- Marker struct for a CUDA driver context (struct Context in
driver/context.rs); ptr is the CUcontext handle, 0 is the null handle. -/
structure Context where
  ptr : Nat
  deriving DecidableEq

/-- Per-thread driver state: slot is the thread-local
CONTEXT_STACK_LOCK cell of driver/context.rs, stack is the native
current-context stack of the CUDA driver for this thread (head =
current context), fresh feeds new nonzero handles. -/
structure DriverState where
  slot : Option Nat
  stack : List Nat
  fresh : Nat
  deriving DecidableEq

/-- Model of the native cuCtxCreate_v2 call: returns a fresh nonzero
handle and makes the new context current on the calling thread (it is
pushed on the native stack), per the CUDA driver contract the spec
describes as the external collaborator. -/
def cuCtxCreate (st : DriverState) : Nat × DriverState :=
  let p := st.fresh + 1
  (p, { st with stack := p :: st.stack, fresh := p })

/-- Model of the native cuCtxGetCurrent call: the head of the native
stack, or the null handle 0 when no context is current. -/
def cuCtxGetCurrent (st : DriverState) : Nat :=
  st.stack.headD 0

/-- Model of the native cuCtxPushCurrent_v2 call. -/
def cuCtxPushCurrent (st : DriverState) (p : Nat) : DriverState :=
  { st with stack := p :: st.stack }

/-- Model of the native cuCtxPopCurrent_v2 call: pops the current
context and returns it; returns none (a native error, surfaced by the
ffi macro as a Result err) when the stack is empty. -/
def cuCtxPopCurrent (st : DriverState) : Option Nat × DriverState :=
  match st.stack with
  | [] => (none, st)
  | p :: rest => (some p, { st with stack := rest })

/-- Embedding of Context::create (driver/context.rs): native create,
panic on a null handle, then unconditionally record the new handle in the
thread-local slot and return the owning handle. -/
def Context.create (st : DriverState) (_device _flag : Nat) :
    DriverState × CtxResult Context :=
  let r := cuCtxCreate st
  if r.1 = 0 then
    (r.2, CtxResult.panicked "Cannot crate a new context")
  else
    ({ r.2 with slot := some r.1 }, CtxResult.ok ⟨r.1⟩)

/-- Embedding of Context::assure_current (driver/context.rs): compare the
native current handle with this handle. -/
def Context.assureCurrent (st : DriverState) (c : Context) : CtxResult Unit :=
  let current := cuCtxGetCurrent st
  if current ≠ c.ptr then CtxResult.err AccelError.contextIsNotCurrent
  else CtxResult.ok ()

/-- Embedding of Context::push (driver/context.rs): recoverable
ContextDuplicated error when the thread slot is occupied, otherwise
native push then record the handle in the slot. -/
def Context.push (st : DriverState) (c : Context) :
    DriverState × CtxResult Unit :=
  if st.slot.isSome then
    (st, CtxResult.err AccelError.contextDuplicated)
  else
    let st1 := cuCtxPushCurrent st c.ptr
    ({ st1 with slot := some c.ptr }, CtxResult.ok ())

/-- Embedding of Context::pop (driver/context.rs): panic when the thread
slot is empty; native pop (whose native error is propagated as a
recoverable Result err by the question-mark operator); panic when the
popped handle is null; assert the popped handle equals this handle; on
success empty the slot. -/
def Context.pop (st : DriverState) (c : Context) :
    DriverState × CtxResult Unit :=
  if st.slot.isNone then
    (st, CtxResult.panicked "No countext has been set")
  else
    match cuCtxPopCurrent st with
    | (none, st1) => (st1, CtxResult.err AccelError.cudaError)
    | (some p, st1) =>
      if p = 0 then
        (st1, CtxResult.panicked "No current context")
      else if p ≠ c.ptr then
        (st1, CtxResult.panicked "Pop must return same pointer")
      else
        ({ st1 with slot := none }, CtxResult.ok ())

/-- Shape data of an Array buffer: the accessors of the Dimension trait
that the copy engine in memory/array.rs consults (width, height, depth,
num_channels) together with len, the total element count dim.len(). -/
structure Dim where
  width : Nat
  height : Nat
  depth : Nat
  numChannels : Nat
  len : Nat
  deriving DecidableEq

/-- Memory type field of a CUDA_MEMCPY3D endpoint (CUmemorytype values
used by memory/array.rs). -/
inductive TransferKind
  | unified
  | arrayKind
  deriving DecidableEq

/-- The fields of the CUDA_MEMCPY3D descriptor that memory/array.rs
fills before calling cuMemcpy3D_v2 (the rest stay at their defaults). -/
structure Memcpy3DParam where
  srcKind : TransferKind
  srcPtr : Nat
  dstKind : TransferKind
  dstPtr : Nat
  widthInBytes : Nat
  height : Nat
  depth : Nat
  deriving DecidableEq

/-- One observable native side effect issued by the copy engine or an
allocator: a plain host byte copy, a context made current or restored by
a context guard, a linear or 3-D native transfer, or a native
allocation call. -/
inductive CopyStep
  | hostCopy (dst src bytes : Nat)
  | pushCtx (ctx : Nat)
  | popCtx (ctx : Nat)
  | memcpyDtoH (dst src bytes : Nat)
  | memcpyUnified (dst src bytes : Nat)
  | memcpy3D (p : Memcpy3DParam)
  | allocHost (bytes : Nat)
  | allocDevice (bytes : Nat)
  | allocRegister (bytes : Nat)
  | allocArray (d : Dim)
  deriving DecidableEq

/-- Termination of an embedded copy or allocation routine: normal return
or a panic with its message. -/
inductive COutcome
  | ok
  | panicked (msg : String)
  deriving DecidableEq

/-- True on the panicked outcome. -/
def COutcome.isPanicked : COutcome → Bool
  | COutcome.ok => false
  | COutcome.panicked _ => true

/-- Run of an embedded side-effecting routine: the native steps it issued,
in order, and how it terminated. -/
abbrev CRun := List CopyStep × COutcome

/-- The run panicked with no native step issued: the routine failed fast
before any bytes were transferred and before any native call. -/
def failsFast (r : CRun) : Prop :=
  r.1 = [] ∧ r.2.isPanicked = true

instance (r : CRun) : Decidable (failsFast r) := by
  unfold failsFast; infer_instance

/-- True when the step is a native allocation call. -/
def CopyStep.isAlloc : CopyStep → Bool
  | CopyStep.allocHost _ => true
  | CopyStep.allocDevice _ => true
  | CopyStep.allocRegister _ => true
  | CopyStep.allocArray _ => true
  | _ => false

/-- View of a memory object through the trait methods that the generic
copy code consults: head_addr, byte_size, memory_type, whether
try_as_slice and try_as_mut_slice succeed, the length of that slice
view, and the owning context reported by try_get_context. Each field is
an independent trait method result, matching the generic functions of
memory/mod.rs and memory/host.rs which see a memory object only through
these methods. -/
structure Mem where
  headAddr : Nat
  byteSize : Nat
  memType : MemoryType
  sliceOk : Bool
  sliceLen : Nat
  ctx : Option Nat
  deriving DecidableEq

/-- Embedding of the provided (default) MemoryMut::copy_from of
memory/mod.rs: assert byte sizes are equal, then dispatch on the
(dest kind, src kind) pair; only (Host, Host) is implemented, as a
slice copy through the unwrapped fallible slice views; every other
pairing hits the unimplemented macro, which panics. There is no
head-address check in this function. -/
def memoryMutCopyFrom (dest src : Mem) : CRun :=
  if dest.byteSize ≠ src.byteSize then
    ([], COutcome.panicked "assertion failed: byte_size mismatch")
  else
    match dest.memType, src.memType with
    | MemoryType.host, MemoryType.host =>
      if dest.sliceOk = false then
        ([], COutcome.panicked "called unwrap on an Err value")
      else if src.sliceOk = false then
        ([], COutcome.panicked "called unwrap on an Err value")
      else if dest.sliceLen ≠ src.sliceLen then
        ([], COutcome.panicked "copy_from_slice length mismatch")
      else
        ([CopyStep.hostCopy dest.headAddr src.headAddr dest.byteSize],
         COutcome.ok)
    | _, _ => ([], COutcome.panicked "copy is not supported yet")

/-- Embedding of copy_to_host of memory/host.rs: assert the head
addresses differ, assert the byte sizes are equal, then dispatch on the
source kind. Host-side sources are a slice copy; a Device source
resolves a context guard from the try_get_context results of the two
sides (asserting equality when both carry one) and issues the linear
cuMemcpyDtoH_v2 transfer under that guard; an Array source is
unimplemented. The guard is modelled from the spec: guard_context of
the device module is not under src; per the spec it temporarily makes
the resolved context current for the duration of the native call, here
the pushCtx and popCtx steps around the transfer. -/
def copyToHost (dest src : Mem) : CRun :=
  if dest.headAddr = src.headAddr then
    ([], COutcome.panicked "assertion failed: head_addr equal")
  else if dest.byteSize ≠ src.byteSize then
    ([], COutcome.panicked "assertion failed: byte_size mismatch")
  else
    match src.memType with
    | MemoryType.host | MemoryType.registered | MemoryType.pageLocked =>
      if dest.sliceOk = false then
        ([], COutcome.panicked "called unwrap on an Err value")
      else if src.sliceOk = false then
        ([], COutcome.panicked "called unwrap on an Err value")
      else if dest.sliceLen ≠ src.sliceLen then
        ([], COutcome.panicked "copy_from_slice length mismatch")
      else
        ([CopyStep.hostCopy dest.headAddr src.headAddr dest.byteSize],
         COutcome.ok)
    | MemoryType.device =>
      match dest.ctx, src.ctx with
      | some dctx, some sctx =>
        if dctx ≠ sctx then
          ([], COutcome.panicked "assertion failed: context mismatch")
        else
          ([CopyStep.pushCtx dctx,
            CopyStep.memcpyDtoH dest.headAddr src.headAddr dest.byteSize,
            CopyStep.popCtx dctx], COutcome.ok)
      | some dctx, none =>
        ([CopyStep.pushCtx dctx,
          CopyStep.memcpyDtoH dest.headAddr src.headAddr dest.byteSize,
          CopyStep.popCtx dctx], COutcome.ok)
      | none, some sctx =>
        ([CopyStep.pushCtx sctx,
          CopyStep.memcpyDtoH dest.headAddr src.headAddr dest.byteSize,
          CopyStep.popCtx sctx], COutcome.ok)
      | none, none =>
        ([CopyStep.memcpyDtoH dest.headAddr src.headAddr dest.byteSize],
         COutcome.ok)
    | MemoryType.array =>
      ([], COutcome.panicked "Array memory is not supported yet")

/-- View of a slice of scalars through the methods the Memcpy
implementation for slices in memory/slice.rs consults: head_addr,
num_elem, and the owning context that the dynamic get_context
pointer-attribute query reports for its head address (none when the
address is unmanaged). -/
structure SliceMem where
  headAddr : Nat
  numElem : Nat
  ctx : Option Nat
  deriving DecidableEq

/-- Embedding of the Memcpy implementation for slices in memory/slice.rs
(copy_from of a slice from a slice), with tSize standing for the scalar
byte width returned by size_of of the element type. Assert head
addresses differ, assert element counts are equal; when either side
reports an owning context, issue the unified cuMemcpy under a guard
making that context current, otherwise fall back to a plain host slice
copy. -/
def sliceCopyFrom (tSize : Nat) (dest src : SliceMem) : CRun :=
  if dest.headAddr = src.headAddr then
    ([], COutcome.panicked "assertion failed: head_addr equal")
  else if dest.numElem ≠ src.numElem then
    ([], COutcome.panicked "assertion failed: num_elem mismatch")
  else
    match dest.ctx, src.ctx with
    | some c, _ =>
      ([CopyStep.pushCtx c,
        CopyStep.memcpyUnified dest.headAddr src.headAddr
          (dest.numElem * tSize),
        CopyStep.popCtx c], COutcome.ok)
    | none, some c =>
      ([CopyStep.pushCtx c,
        CopyStep.memcpyUnified dest.headAddr src.headAddr
          (dest.numElem * tSize),
        CopyStep.popCtx c], COutcome.ok)
    | none, none =>
      ([CopyStep.hostCopy dest.headAddr src.headAddr
          (dest.numElem * tSize)], COutcome.ok)

/-- The data of struct Array of memory/array.rs that its copy engine
consults: the CUarray handle (also its reported head address), the
Dimension value, and the owning context handle. -/
structure ArrayMem where
  arrayHandle : Nat
  dim : Dim
  ctx : Nat
  deriving DecidableEq

/-- Reported head address of an Array: the CUarray handle cast to a
pointer, per the Memory implementation in memory/array.rs. -/
def ArrayMem.headAddr (a : ArrayMem) : Nat :=
  a.arrayHandle

/-- Embedding of the Memcpy implementation copying a slice into an
Array (memory/array.rs): assert head addresses differ, assert element
counts are equal, build the CUDA_MEMCPY3D descriptor (source unified =
the slice pointer, destination the array handle, WidthInBytes =
dim.width times size_of of the element type times dim.num_channels,
Height = dim.height, Depth = dim.depth) and issue cuMemcpy3D_v2 under
the context guard of the array. -/
def arrayCopyFromSlice (tSize : Nat) (dest : ArrayMem) (src : SliceMem) :
    CRun :=
  if dest.headAddr = src.headAddr then
    ([], COutcome.panicked "assertion failed: head_addr equal")
  else if dest.dim.len ≠ src.numElem then
    ([], COutcome.panicked "assertion failed: num_elem mismatch")
  else
    ([CopyStep.pushCtx dest.ctx,
      CopyStep.memcpy3D
        { srcKind := TransferKind.unified
          srcPtr := src.headAddr
          dstKind := TransferKind.arrayKind
          dstPtr := dest.arrayHandle
          widthInBytes := dest.dim.width * tSize * dest.dim.numChannels
          height := dest.dim.height
          depth := dest.dim.depth },
      CopyStep.popCtx dest.ctx], COutcome.ok)

/-- Embedding of the Memcpy implementation copying an Array out into a
slice (memory/array.rs): the mirror image of arrayCopyFromSlice, with
source the array handle and destination unified = the slice pointer,
and the same WidthInBytes, Height and Depth fields computed from the
Dimension of the array. -/
def sliceCopyFromArray (tSize : Nat) (dest : SliceMem) (src : ArrayMem) :
    CRun :=
  if dest.headAddr = src.headAddr then
    ([], COutcome.panicked "assertion failed: head_addr equal")
  else if dest.numElem ≠ src.dim.len then
    ([], COutcome.panicked "assertion failed: num_elem mismatch")
  else
    ([CopyStep.pushCtx src.ctx,
      CopyStep.memcpy3D
        { srcKind := TransferKind.arrayKind
          srcPtr := src.arrayHandle
          dstKind := TransferKind.unified
          dstPtr := dest.headAddr
          widthInBytes := src.dim.width * tSize * src.dim.numChannels
          height := src.dim.height
          depth := src.dim.depth },
      CopyStep.popCtx src.ctx], COutcome.ok)

/-- Embedding of PageLockedMemory::new (memory/host.rs): assert the
element count is positive with the message given in the source, then
allocate size times size_of of the element type bytes of pinned host
memory under a context guard. -/
def pageLockedNew (tSize ctx size : Nat) : CRun :=
  if size = 0 then
    ([], COutcome.panicked "Zero-sized malloc is forbidden")
  else
    ([CopyStep.pushCtx ctx, CopyStep.allocHost (size * tSize),
      CopyStep.popCtx ctx], COutcome.ok)

/-- Modelled from the spec: DeviceMemory::new lives in memory/device.rs,
which is not under src (only its tests in memory/host.rs are, and they
expect the panic message Zero-sized malloc is forbidden on a zero-size
request). Per the shared construction contract of the spec, a zero-size
request panics before the native linear device allocation. -/
def deviceMemoryNew (tSize ctx size : Nat) : CRun :=
  if size = 0 then
    ([], COutcome.panicked "Zero-sized malloc is forbidden")
  else
    ([CopyStep.pushCtx ctx, CopyStep.allocDevice (size * tSize),
      CopyStep.popCtx ctx], COutcome.ok)

/-- Modelled from the spec: RegisteredMemory::new is not under src. Per
the shared construction contract of the spec, a zero-size registration
request panics before the native register call. -/
def registeredMemoryNew (tSize ctx size : Nat) : CRun :=
  if size = 0 then
    ([], COutcome.panicked "Zero-sized malloc is forbidden")
  else
    ([CopyStep.pushCtx ctx, CopyStep.allocRegister (size * tSize),
      CopyStep.popCtx ctx], COutcome.ok)

/-- Modelled from the spec: Dimension::as_descriptor (the dimension
module of memory/info is not under src). Per the shared construction
contract of the spec, a zero-sized shape (zero total element count, as
for an all-zero Dimension) is refused with a panic rather than
forwarded to the native allocator. -/
def dimAsDescriptor (d : Dim) : COutcome :=
  if d.len = 0 then COutcome.panicked "Zero-sized malloc is forbidden"
  else COutcome.ok

/-- Embedding of Allocatable::uninitialized for Array (memory/array.rs):
build the native descriptor from the Dimension (refusing a zero-sized
shape, see dimAsDescriptor), then create the 3-D array under a context
guard. -/
def arrayUninitialized (ctx : Nat) (d : Dim) : CRun :=
  match dimAsDescriptor d with
  | COutcome.panicked m => ([], COutcome.panicked m)
  | COutcome.ok =>
    ([CopyStep.pushCtx ctx, CopyStep.allocArray d, CopyStep.popCtx ctx],
     COutcome.ok)

/-- C3: Context::push fails with the recoverable already-active error
(the variant driver/context.rs names ContextDuplicated, which the spec
calls ContextAlreadyActive) whenever the thread slot is occupied, and
in particular a second push right after create with no intervening pop
fails that way; when the slot is empty, push makes this Context the
native current context and records its handle in the slot. -/
theorem push_occupied_errs_empty_activates :
    (∀ (st : DriverState) (c : Context) (q : Nat), st.slot = some q →
      Context.push st c = (st, CtxResult.err AccelError.contextDuplicated))
  ∧ (∀ (st : DriverState) (c : Context), st.slot = none →
      Context.push st c =
        ({ st with slot := some c.ptr, stack := c.ptr :: st.stack },
         CtxResult.ok ())
      ∧ cuCtxGetCurrent (Context.push st c).1 = c.ptr
      ∧ (Context.push st c).1.slot = some c.ptr)
  ∧ (∀ (st : DriverState) (d f : Nat) (c : Context),
      Context.push (Context.create st d f).1 c =
        ((Context.create st d f).1,
         CtxResult.err AccelError.contextDuplicated)) := by
  refine ⟨?_, ?_, ?_⟩
  · intro st c q h
    simp [Context.push, h]
  · intro st c h
    refine ⟨?_, ?_, ?_⟩ <;>
      simp [Context.push, cuCtxPushCurrent, cuCtxGetCurrent, h]
  · intro st d f c
    simp [Context.push, Context.create, cuCtxCreate]

/-- C3 witness: the two push behaviours and the create-then-push failure
at concrete states. -/
theorem push_occupied_errs_empty_activates_witness :
    Context.push ⟨some 7, [7], 7⟩ ⟨9⟩ =
      (⟨some 7, [7], 7⟩, CtxResult.err AccelError.contextDuplicated)
  ∧ Context.push ⟨none, [], 0⟩ ⟨9⟩ =
      (⟨some 9, [9], 0⟩, CtxResult.ok ())
  ∧ Context.push (Context.create ⟨none, [], 0⟩ 0 0).1 ⟨1⟩ =
      ((Context.create ⟨none, [], 0⟩ 0 0).1,
       CtxResult.err AccelError.contextDuplicated) :=
  ⟨push_occupied_errs_empty_activates.1 ⟨some 7, [7], 7⟩ ⟨9⟩ 7 rfl,
   (push_occupied_errs_empty_activates.2.1 ⟨none, [], 0⟩ ⟨9⟩ rfl).1,
   push_occupied_errs_empty_activates.2.2 ⟨none, [], 0⟩ 0 0 ⟨1⟩⟩

/-- C7: Context::create allocates a native context, immediately records
its handle in the thread slot, and assure_current invoked immediately
after create on the same thread succeeds (the native create made the new
context current). -/
theorem create_marks_active_then_current :
    ∀ (st : DriverState) (d f : Nat),
      ∃ c : Context,
        (Context.create st d f).2 = CtxResult.ok c
        ∧ (Context.create st d f).1.slot = some c.ptr
        ∧ Context.assureCurrent (Context.create st d f).1 c =
            CtxResult.ok () := by
  intro st d f
  refine ⟨⟨st.fresh + 1⟩, ?_, ?_, ?_⟩ <;>
    simp [Context.create, cuCtxCreate, Context.assureCurrent,
      cuCtxGetCurrent]

/-- C8: Context::pop panics (never a recoverable error value) when the
thread slot is empty, when the native pop hands back the null handle 0,
and when the popped handle differs from the handle of this Context; on
success it empties the slot. -/
theorem pop_fatal_cases_and_success :
    ∀ (st : DriverState) (c : Context),
      (st.slot = none →
        Context.pop st c = (st, CtxResult.panicked "No countext has been set"))
    ∧ (∀ q rest, st.slot = some q → st.stack = 0 :: rest →
        (Context.pop st c).2 = CtxResult.panicked "No current context")
    ∧ (∀ q p rest, st.slot = some q → st.stack = p :: rest → p ≠ 0 →
        p ≠ c.ptr →
        (Context.pop st c).2 = CtxResult.panicked "Pop must return same pointer")
    ∧ (∀ q rest, st.slot = some q → st.stack = c.ptr :: rest → c.ptr ≠ 0 →
        Context.pop st c =
          ({ st with stack := rest, slot := none }, CtxResult.ok ())) := by
  intro st c
  refine ⟨?_, ?_, ?_, ?_⟩
  · intro h
    simp [Context.pop, h]
  · intro q rest hq hs
    simp [Context.pop, cuCtxPopCurrent, hq, hs]
  · intro q p rest hq hs hp hne
    simp [Context.pop, cuCtxPopCurrent, hq, hs, hp, hne]
  · intro q rest hq hs hp
    simp [Context.pop, cuCtxPopCurrent, hq, hs, hp]

/-- C8 witness: the three fatal cases and the success case at concrete
states. -/
theorem pop_fatal_cases_and_success_witness :
    Context.pop ⟨none, [], 0⟩ ⟨7⟩ =
      (⟨none, [], 0⟩, CtxResult.panicked "No countext has been set")
  ∧ (Context.pop ⟨some 7, [0], 7⟩ ⟨7⟩).2 =
      CtxResult.panicked "No current context"
  ∧ (Context.pop ⟨some 7, [9], 9⟩ ⟨7⟩).2 =
      CtxResult.panicked "Pop must return same pointer"
  ∧ Context.pop ⟨some 7, [7, 3], 9⟩ ⟨7⟩ =
      (⟨none, [3], 9⟩, CtxResult.ok ()) :=
  ⟨(pop_fatal_cases_and_success ⟨none, [], 0⟩ ⟨7⟩).1 rfl,
   (pop_fatal_cases_and_success ⟨some 7, [0], 7⟩ ⟨7⟩).2.1 7 [] rfl rfl,
   (pop_fatal_cases_and_success ⟨some 7, [9], 9⟩ ⟨7⟩).2.2.1 7 9 [] rfl rfl
     (by decide) (by decide),
   (pop_fatal_cases_and_success ⟨some 7, [7, 3], 9⟩ ⟨7⟩).2.2.2 7 [3] rfl rfl
     (by decide)⟩

/-- C10: Context::create writes the new handle into the thread slot
unconditionally: when a handle is already recorded there, create still
succeeds (no already-active style error) and the slot afterwards holds
the handle of the newly created Context. -/
theorem create_overwrites_occupied_slot :
    ∀ (st : DriverState) (d f q : Nat), st.slot = some q →
      ∃ c : Context,
        (Context.create st d f).2 = CtxResult.ok c
        ∧ (Context.create st d f).1.slot = some c.ptr := by
  intro st d f q _h
  exact ⟨⟨st.fresh + 1⟩, by simp [Context.create, cuCtxCreate],
    by simp [Context.create, cuCtxCreate]⟩

/-- C10 witness: create on a state whose slot already holds handle 7
succeeds and replaces the recorded handle. -/
theorem create_overwrites_occupied_slot_witness :
    ∃ c : Context,
      (Context.create ⟨some 7, [7], 7⟩ 0 0).2 = CtxResult.ok c
      ∧ (Context.create ⟨some 7, [7], 7⟩ 0 0).1.slot = some c.ptr :=
  create_overwrites_occupied_slot ⟨some 7, [7], 7⟩ 0 0 7 rfl

/-- C1 counterexample: the provided MemoryMut::copy_from of
memory/mod.rs has no head-address guard. On a Host-to-Host copy whose
two sides report the same head address 100 (and equal byte sizes), the
operation does not panic: it completes normally and transfers bytes,
refuting the claim that every copy pairing fails fast on a shared head
address. -/
theorem default_copy_from_aliased_counterexample :
    (⟨100, 8, MemoryType.host, true, 2, none⟩ : Mem).headAddr =
      (⟨100, 8, MemoryType.host, true, 2, none⟩ : Mem).headAddr
  ∧ memoryMutCopyFrom ⟨100, 8, MemoryType.host, true, 2, none⟩
      ⟨100, 8, MemoryType.host, true, 2, none⟩ =
      ([CopyStep.hostCopy 100 100 8], COutcome.ok) := by
  decide

/-- C1 amended: every copy routine except the provided
MemoryMut::copy_from of memory/mod.rs — that is, copy_to_host of
memory/host.rs, the slice Memcpy of memory/slice.rs, and both Array
Memcpy directions of memory/array.rs — panics before any native step
when the two sides report the same head address; the provided
MemoryMut::copy_from checks only byte size. -/
theorem alias_guard_fails_fast :
    (∀ dest src : Mem, dest.headAddr = src.headAddr →
      copyToHost dest src =
        ([], COutcome.panicked "assertion failed: head_addr equal"))
  ∧ (∀ (tSize : Nat) (dest src : SliceMem), dest.headAddr = src.headAddr →
      sliceCopyFrom tSize dest src =
        ([], COutcome.panicked "assertion failed: head_addr equal"))
  ∧ (∀ (tSize : Nat) (dest : ArrayMem) (src : SliceMem),
      dest.headAddr = src.headAddr →
      arrayCopyFromSlice tSize dest src =
        ([], COutcome.panicked "assertion failed: head_addr equal"))
  ∧ (∀ (tSize : Nat) (dest : SliceMem) (src : ArrayMem),
      dest.headAddr = src.headAddr →
      sliceCopyFromArray tSize dest src =
        ([], COutcome.panicked "assertion failed: head_addr equal")) := by
  refine ⟨?_, ?_, ?_, ?_⟩
  · intro dest src h
    simp [copyToHost, h]
  · intro tSize dest src h
    simp [sliceCopyFrom, h]
  · intro tSize dest src h
    simp [arrayCopyFromSlice, h]
  · intro tSize dest src h
    simp [sliceCopyFromArray, h]

/-- C1 amended witness: each guarded routine at a concrete aliased
input. -/
theorem alias_guard_fails_fast_witness :
    copyToHost ⟨50, 8, MemoryType.host, true, 2, none⟩
      ⟨50, 8, MemoryType.device, false, 0, some 1⟩ =
      ([], COutcome.panicked "assertion failed: head_addr equal")
  ∧ sliceCopyFrom 4 ⟨60, 3, none⟩ ⟨60, 3, none⟩ =
      ([], COutcome.panicked "assertion failed: head_addr equal")
  ∧ arrayCopyFromSlice 4 ⟨70, ⟨2, 3, 1, 1, 6⟩, 1⟩ ⟨70, 6, none⟩ =
      ([], COutcome.panicked "assertion failed: head_addr equal")
  ∧ sliceCopyFromArray 4 ⟨80, 6, none⟩ ⟨80, ⟨2, 3, 1, 1, 6⟩, 1⟩ =
      ([], COutcome.panicked "assertion failed: head_addr equal") :=
  ⟨alias_guard_fails_fast.1 _ _ rfl,
   alias_guard_fails_fast.2.1 4 _ _ rfl,
   alias_guard_fails_fast.2.2.1 4 _ _ rfl,
   alias_guard_fails_fast.2.2.2 4 _ _ rfl⟩

/-- C2: a zero-sized construction request to the Page-locked, Device,
Registered, or Array allocator panics with the message Zero-sized
malloc is forbidden and issues no native step at all, so the native
allocator is never reached (Device, Registered and the Dimension
descriptor are modelled from the spec, their sources being absent from
src). -/
theorem zero_sized_alloc_fails_fast :
    ∀ (tSize ctx size : Nat) (d : Dim), size = 0 → d.len = 0 →
      pageLockedNew tSize ctx size =
        ([], COutcome.panicked "Zero-sized malloc is forbidden")
      ∧ deviceMemoryNew tSize ctx size =
        ([], COutcome.panicked "Zero-sized malloc is forbidden")
      ∧ registeredMemoryNew tSize ctx size =
        ([], COutcome.panicked "Zero-sized malloc is forbidden")
      ∧ arrayUninitialized ctx d =
        ([], COutcome.panicked "Zero-sized malloc is forbidden") := by
  intro tSize ctx size d hs hd
  subst hs
  exact ⟨rfl, rfl, rfl, by simp [arrayUninitialized, dimAsDescriptor, hd]⟩

/-- C2 witness: the four allocators at a concrete zero-sized request
(size 0, and the all-zero Dimension). -/
theorem zero_sized_alloc_fails_fast_witness :
    pageLockedNew 4 1 0 =
      ([], COutcome.panicked "Zero-sized malloc is forbidden")
    ∧ deviceMemoryNew 4 1 0 =
      ([], COutcome.panicked "Zero-sized malloc is forbidden")
    ∧ registeredMemoryNew 4 1 0 =
      ([], COutcome.panicked "Zero-sized malloc is forbidden")
    ∧ arrayUninitialized 1 ⟨0, 0, 0, 0, 0⟩ =
      ([], COutcome.panicked "Zero-sized malloc is forbidden") :=
  zero_sized_alloc_fails_fast 4 1 0 ⟨0, 0, 0, 0, 0⟩ rfl rfl

/-- C4 counterexample: a copy_from call through the provided
MemoryMut::copy_from with the unsupported pairing (dest Device, src
Host) and matching byte sizes is a panic (the unimplemented macro),
not a recoverable error value handed to the caller — indeed the
function returns no Result at all. -/
theorem unsupported_pair_counterexample :
    memoryMutCopyFrom ⟨200, 8, MemoryType.device, false, 0, some 1⟩
      ⟨100, 8, MemoryType.host, true, 2, none⟩ =
      ([], COutcome.panicked "copy is not supported yet") := by
  decide

/-- C4 amended: a copy_from call through the provided
MemoryMut::copy_from with any unsupported (dest kind, src kind) pairing
— every pairing other than (Host, Host) — aborts with the unimplemented
panic before any native step; no recoverable typed error value is
surfaced. -/
theorem unsupported_pair_panics (dest src : Mem)
    (hsize : dest.byteSize = src.byteSize)
    (hpair : ¬(dest.memType = MemoryType.host ∧
               src.memType = MemoryType.host)) :
    memoryMutCopyFrom dest src =
      ([], COutcome.panicked "copy is not supported yet") := by
  unfold memoryMutCopyFrom
  rw [if_neg (by simp [hsize])]
  cases hd : dest.memType <;> cases hs : src.memType <;> simp_all

/-- C4 amended witness: the pairing (dest Array, src Device) with equal
byte sizes panics with the unimplemented message. -/
theorem unsupported_pair_panics_witness :
    memoryMutCopyFrom ⟨500, 16, MemoryType.array, false, 0, some 2⟩
      ⟨400, 16, MemoryType.device, false, 0, some 2⟩ =
      ([], COutcome.panicked "copy is not supported yet") :=
  unsupported_pair_panics _ _ (by decide) (by decide)

/-- C5: a copy whose two sides disagree on size — byte size for the
generic MemoryMut::copy_from and copy_to_host, element count (the same
thing divided by the shared scalar width) for the slice and Array
Memcpy implementations — panics with no native step issued, in every
kind pairing: the size assert sits in front of every dispatch arm. -/
theorem size_mismatch_fails_fast :
    (∀ dest src : Mem, dest.byteSize ≠ src.byteSize →
      memoryMutCopyFrom dest src =
        ([], COutcome.panicked "assertion failed: byte_size mismatch"))
  ∧ (∀ dest src : Mem, dest.byteSize ≠ src.byteSize →
      failsFast (copyToHost dest src))
  ∧ (∀ (tSize : Nat) (dest src : SliceMem), dest.numElem ≠ src.numElem →
      failsFast (sliceCopyFrom tSize dest src))
  ∧ (∀ (tSize : Nat) (dest : ArrayMem) (src : SliceMem),
      dest.dim.len ≠ src.numElem →
      failsFast (arrayCopyFromSlice tSize dest src))
  ∧ (∀ (tSize : Nat) (dest : SliceMem) (src : ArrayMem),
      dest.numElem ≠ src.dim.len →
      failsFast (sliceCopyFromArray tSize dest src)) := by
  refine ⟨?_, ?_, ?_, ?_, ?_⟩
  · intro dest src h
    simp [memoryMutCopyFrom, h]
  · intro dest src h
    by_cases hh : dest.headAddr = src.headAddr <;>
      simp [copyToHost, hh, h, failsFast, COutcome.isPanicked]
  · intro tSize dest src h
    by_cases hh : dest.headAddr = src.headAddr <;>
      simp [sliceCopyFrom, hh, h, failsFast, COutcome.isPanicked]
  · intro tSize dest src h
    by_cases hh : dest.headAddr = src.headAddr <;>
      simp [arrayCopyFromSlice, hh, h, failsFast, COutcome.isPanicked]
  · intro tSize dest src h
    by_cases hh : dest.headAddr = src.headAddr <;>
      simp [sliceCopyFromArray, hh, h, failsFast, COutcome.isPanicked]

/-- C5 witness: each copy routine at a concrete size-mismatched input
(distinct head addresses, so only the size assert can fire). -/
theorem size_mismatch_fails_fast_witness :
    memoryMutCopyFrom ⟨100, 8, MemoryType.host, true, 2, none⟩
      ⟨300, 4, MemoryType.host, true, 1, none⟩ =
      ([], COutcome.panicked "assertion failed: byte_size mismatch")
  ∧ failsFast (copyToHost ⟨100, 8, MemoryType.host, true, 2, none⟩
      ⟨400, 4, MemoryType.device, false, 0, some 1⟩)
  ∧ failsFast (sliceCopyFrom 4 ⟨100, 2, none⟩ ⟨300, 1, none⟩)
  ∧ failsFast (arrayCopyFromSlice 4 ⟨500, ⟨2, 3, 1, 1, 6⟩, 1⟩
      ⟨100, 5, none⟩)
  ∧ failsFast (sliceCopyFromArray 4 ⟨100, 5, none⟩
      ⟨500, ⟨2, 3, 1, 1, 6⟩, 1⟩) :=
  ⟨size_mismatch_fails_fast.1 _ _ (by decide),
   size_mismatch_fails_fast.2.1 _ _ (by decide),
   size_mismatch_fails_fast.2.2.1 4 _ _ (by decide),
   size_mismatch_fails_fast.2.2.2.1 4 _ _ (by decide),
   size_mismatch_fails_fast.2.2.2.2 4 _ _ (by decide)⟩

/-- C6: in copy_to_host with a Device source (head addresses distinct,
byte sizes equal), the owning context is resolved from whichever side
reports one: when both report one they must be equal (a mismatch panics
with no native step), and in every resolved case the run makes the
resolved context current, only then issues the linear device-to-host
transfer, and restores afterwards. -/
theorem device_copy_context_resolution :
    ∀ dest src : Mem, src.memType = MemoryType.device →
      dest.headAddr ≠ src.headAddr → dest.byteSize = src.byteSize →
      (∀ c1 c2, dest.ctx = some c1 → src.ctx = some c2 → c1 ≠ c2 →
        copyToHost dest src =
          ([], COutcome.panicked "assertion failed: context mismatch"))
    ∧ (∀ c, dest.ctx = some c → src.ctx = some c →
        copyToHost dest src =
          ([CopyStep.pushCtx c,
            CopyStep.memcpyDtoH dest.headAddr src.headAddr dest.byteSize,
            CopyStep.popCtx c], COutcome.ok))
    ∧ (∀ c, dest.ctx = some c → src.ctx = none →
        copyToHost dest src =
          ([CopyStep.pushCtx c,
            CopyStep.memcpyDtoH dest.headAddr src.headAddr dest.byteSize,
            CopyStep.popCtx c], COutcome.ok))
    ∧ (∀ c, dest.ctx = none → src.ctx = some c →
        copyToHost dest src =
          ([CopyStep.pushCtx c,
            CopyStep.memcpyDtoH dest.headAddr src.headAddr dest.byteSize,
            CopyStep.popCtx c], COutcome.ok)) := by
  intro dest src hdev hne hsize
  refine ⟨?_, ?_, ?_, ?_⟩
  · intro c1 c2 h1 h2 hc
    simp [copyToHost, hdev, hne, hsize, h1, h2, hc]
  · intro c h1 h2
    simp [copyToHost, hdev, hne, hsize, h1, h2]
  · intro c h1 h2
    simp [copyToHost, hdev, hne, hsize, h1, h2]
  · intro c h1 h2
    simp [copyToHost, hdev, hne, hsize, h1, h2]

/-- C6 witness: the context-mismatch panic and the three resolved cases
at concrete inputs. -/
theorem device_copy_context_resolution_witness :
    copyToHost ⟨100, 8, MemoryType.host, true, 2, some 2⟩
      ⟨400, 8, MemoryType.device, false, 0, some 3⟩ =
      ([], COutcome.panicked "assertion failed: context mismatch")
  ∧ copyToHost ⟨100, 8, MemoryType.host, true, 2, some 2⟩
      ⟨400, 8, MemoryType.device, false, 0, some 2⟩ =
      ([CopyStep.pushCtx 2, CopyStep.memcpyDtoH 100 400 8,
        CopyStep.popCtx 2], COutcome.ok)
  ∧ copyToHost ⟨100, 8, MemoryType.host, true, 2, some 2⟩
      ⟨400, 8, MemoryType.device, false, 0, none⟩ =
      ([CopyStep.pushCtx 2, CopyStep.memcpyDtoH 100 400 8,
        CopyStep.popCtx 2], COutcome.ok)
  ∧ copyToHost ⟨100, 8, MemoryType.host, true, 2, none⟩
      ⟨400, 8, MemoryType.device, false, 0, some 3⟩ =
      ([CopyStep.pushCtx 3, CopyStep.memcpyDtoH 100 400 8,
        CopyStep.popCtx 3], COutcome.ok) :=
  ⟨(device_copy_context_resolution
      ⟨100, 8, MemoryType.host, true, 2, some 2⟩
      ⟨400, 8, MemoryType.device, false, 0, some 3⟩ rfl (by decide)
      rfl).1 2 3 rfl rfl (by decide),
   (device_copy_context_resolution
      ⟨100, 8, MemoryType.host, true, 2, some 2⟩
      ⟨400, 8, MemoryType.device, false, 0, some 2⟩ rfl (by decide)
      rfl).2.1 2 rfl rfl,
   (device_copy_context_resolution
      ⟨100, 8, MemoryType.host, true, 2, some 2⟩
      ⟨400, 8, MemoryType.device, false, 0, none⟩ rfl (by decide)
      rfl).2.2.1 2 rfl rfl,
   (device_copy_context_resolution
      ⟨100, 8, MemoryType.host, true, 2, none⟩
      ⟨400, 8, MemoryType.device, false, 0, some 3⟩ rfl (by decide)
      rfl).2.2.2 3 rfl rfl⟩

/-- C9: for a copy between a slice and an Array that passes the two
asserts, the CUDA_MEMCPY3D descriptor handed to the native 3-D copy has
WidthInBytes = dim.width times the scalar byte width times
dim.num_channels, Height = dim.height and Depth = dim.depth, in both
the into-array and the out-of-array direction; the channel count
multiplies only the width field. -/
theorem array_descriptor_fields :
    ∀ (tSize : Nat) (a : ArrayMem) (s : SliceMem),
      a.headAddr ≠ s.headAddr → a.dim.len = s.numElem →
      arrayCopyFromSlice tSize a s =
        ([CopyStep.pushCtx a.ctx,
          CopyStep.memcpy3D
            ⟨TransferKind.unified, s.headAddr, TransferKind.arrayKind,
             a.arrayHandle, a.dim.width * tSize * a.dim.numChannels,
             a.dim.height, a.dim.depth⟩,
          CopyStep.popCtx a.ctx], COutcome.ok)
      ∧ sliceCopyFromArray tSize s a =
        ([CopyStep.pushCtx a.ctx,
          CopyStep.memcpy3D
            ⟨TransferKind.arrayKind, a.arrayHandle, TransferKind.unified,
             s.headAddr, a.dim.width * tSize * a.dim.numChannels,
             a.dim.height, a.dim.depth⟩,
          CopyStep.popCtx a.ctx], COutcome.ok) := by
  intro tSize a s hne hlen
  constructor
  · simp [arrayCopyFromSlice, hne, hlen]
  · have hne2 : s.headAddr ≠ a.headAddr := fun h => hne h.symm
    simp [sliceCopyFromArray, hne2, hlen.symm]

/-- C9 witness: both directions at a concrete 2 x 3 x 4 shape with 2
channels and scalar width 4: the width field is 2 * 4 * 2 = 16 bytes,
height 3, depth 4. -/
theorem array_descriptor_fields_witness :
    arrayCopyFromSlice 4 ⟨500, ⟨2, 3, 4, 2, 24⟩, 9⟩ ⟨100, 24, none⟩ =
      ([CopyStep.pushCtx 9,
        CopyStep.memcpy3D
          ⟨TransferKind.unified, 100, TransferKind.arrayKind, 500,
           16, 3, 4⟩,
        CopyStep.popCtx 9], COutcome.ok)
  ∧ sliceCopyFromArray 4 ⟨100, 24, none⟩ ⟨500, ⟨2, 3, 4, 2, 24⟩, 9⟩ =
      ([CopyStep.pushCtx 9,
        CopyStep.memcpy3D
          ⟨TransferKind.arrayKind, 500, TransferKind.unified, 100,
           16, 3, 4⟩,
        CopyStep.popCtx 9], COutcome.ok) :=
  array_descriptor_fields 4 ⟨500, ⟨2, 3, 4, 2, 24⟩, 9⟩ ⟨100, 24, none⟩
    (by decide) rfl

end Accel

